import Mathlib

/-!
Verification of the composite search subsystem of the infokes file-explorer
repository.  The HTTP search controller is embedded from
`packages/backend/src/controllers/search.ts`.  The search service module it
imports (`services/search.ts`: SearchableFolder, SearchableFile, the criteria
classes, SearchEngine and SearchService) is embedded from the second
concatenated document of
`packages/backend/src/database/migrations/0001_initial.sql`, which contains
that module's full source.
-/

/-- JS `String.prototype.includes`: `jsIncludes s sub` is true exactly when
`sub` occurs as a contiguous substring of `s` (the empty string occurs in
every string). -/
def jsIncludes (s sub : String) : Bool :=
  decide (sub.data <:+: s.data)

/-- JS `String.prototype.toLowerCase`, embedded as per-character lowering of
the underlying character list. -/
def jsToLowerCase (s : String) : String :=
  ⟨s.data.map Char.toLower⟩

/-- Folder row of the `folders` table (`database/schema.ts`); timestamps are
carried as uninterpreted integers. -/
structure Folder where
  id : Int
  name : String
  parentId : Option Int
  path : String
  createdAt : Int
  updatedAt : Int

/-- File row of the `files` table (`database/schema.ts`); `size` and
`extension` are nullable columns, timestamps are carried as uninterpreted
integers. -/
structure File where
  id : Int
  name : String
  folderId : Int
  size : Option Int
  extension : Option String
  path : String
  createdAt : Int
  updatedAt : Int

/-- The ISearchable items of `services/search.ts` (embedded from
`migrations/0001_initial.sql`): a SearchableFolder wrapping a folder record
or a SearchableFile wrapping a file record. -/
inductive ISearchable where
  | SearchableFolder (folder : Folder)
  | SearchableFile (file : File)

/-- `getId()`: the record id in string form. -/
def ISearchable.getId : ISearchable → String
  | .SearchableFolder f => toString f.id
  | .SearchableFile f => toString f.id

/-- `getName()`: the record name. -/
def ISearchable.getName : ISearchable → String
  | .SearchableFolder f => f.name
  | .SearchableFile f => f.name

/-- `getPath()`: the record path. -/
def ISearchable.getPath : ISearchable → String
  | .SearchableFolder f => f.path
  | .SearchableFile f => f.path

/-- `getType()`: the tag fixed by the wrapper class. -/
def ISearchable.getType : ISearchable → String
  | .SearchableFolder _ => ("folder")
  | .SearchableFile _ => ("file")

/-- One result record of the `SearchResultItem` shape in
`services/search.ts`: `parentId` is a nullable string, `size` is optional and
only ever set on files, `modifiedAt` / `createdAt` are the record
timestamps. -/
structure SearchResultItem where
  id : String
  name : String
  type : String
  path : String
  parentId : Option String
  size : Option Int
  modifiedAt : Int
  createdAt : Int

/-- The `toSearchResult()` methods of SearchableFolder and SearchableFile
(the service dispatches on the wrapper class; the dispatch is total on the
two classes).  Folder: `parentId?.toString() || null`, no size.  File:
`parentId` is the folder id in string form, and `size: this.file.size ||
undefined` — a null or zero size collapses to an absent size, since 0 is
falsy in JS. -/
def ISearchable.toSearchResult : ISearchable → SearchResultItem
  | .SearchableFolder f =>
    { id := toString f.id, name := f.name, type := ("folder"), path := f.path
      parentId := f.parentId.map (fun i => toString i)
      size := none, modifiedAt := f.updatedAt, createdAt := f.createdAt }
  | .SearchableFile f =>
    { id := toString f.id, name := f.name, type := ("file"), path := f.path
      parentId := some (toString f.folderId)
      size := match f.size with
        | none => none
        | some n => if n == 0 then none else some n
      modifiedAt := f.updatedAt, createdAt := f.createdAt }

/-- The closed criteria variant set of `services/search.ts` (embedded from
`migrations/0001_initial.sql`): NameSearchCriteria, PathSearchCriteria,
TypeSearchCriteria and the composite AndSearchCriteria / OrSearchCriteria. -/
inductive ISearchCriteria where
  | NameSearchCriteria (query : String)
  | PathSearchCriteria (query : String)
  | TypeSearchCriteria (type : String)
  | AndSearchCriteria (criteria : List ISearchCriteria)
  | OrSearchCriteria (criteria : List ISearchCriteria)

mutual

/-- `execute(item)` of each criteria class in `services/search.ts`:
name / path criteria lower-case both sides and test substring containment
(`getName().toLowerCase().includes(query.toLowerCase())`), the type
criterion is strict equality against `getType()`, `and` is `every` and `or`
is `some` over the child criteria. -/
def ISearchCriteria.execute : ISearchCriteria → ISearchable → Bool
  | .NameSearchCriteria query, item =>
    jsIncludes (jsToLowerCase item.getName) (jsToLowerCase query)
  | .PathSearchCriteria query, item =>
    jsIncludes (jsToLowerCase item.getPath) (jsToLowerCase query)
  | .TypeSearchCriteria t, item => item.getType == t
  | .AndSearchCriteria cs, item => ISearchCriteria.executeAll cs item
  | .OrSearchCriteria cs, item => ISearchCriteria.executeAny cs item

/-- `this.criteria.every(criteria => criteria.execute(item))`. -/
def ISearchCriteria.executeAll : List ISearchCriteria → ISearchable → Bool
  | [], _ => true
  | c :: cs, item => c.execute item && ISearchCriteria.executeAll cs item

/-- `this.criteria.some(criteria => criteria.execute(item))`. -/
def ISearchCriteria.executeAny : List ISearchCriteria → ISearchable → Bool
  | [], _ => false
  | c :: cs, item => c.execute item || ISearchCriteria.executeAny cs item

end

/-- The SearchEngine class of `services/search.ts`:
`search(items, criteria)` is `items.filter(item => criteria.execute(item))`. -/
def SearchEngine.search (items : List ISearchable) (criteria : ISearchCriteria) :
    List ISearchable :=
  items.filter (fun item => criteria.execute item)

/-- The options parameter of `SearchService.search`, whose destructured
fields all default to true (`SearchOptions.default`). -/
structure SearchOptions where
  includeFiles : Bool
  includeFolders : Bool
  searchInPath : Bool

/-- The destructured defaults `includeFiles = true, includeFolders = true,
searchInPath = true` applied when the caller omits the options. -/
def SearchOptions.default : SearchOptions :=
  { includeFiles := true, includeFolders := true, searchInPath := true }

/-- The ISearchResult shape of `services/search.ts`. -/
structure ISearchResult where
  items : List SearchResultItem
  totalCount : Nat
  query : String

/-- A snapshot of what the data-provider collaborator
(`getFolders()` / `getFiles()`) returns for one search invocation. -/
structure DataProviderState where
  folders : List Folder
  files : List File

/-- `SearchService.search(query, options)` (embedded from
`migrations/0001_initial.sql`): fetch folders only when `includeFolders` and
files only when `includeFiles` (otherwise the empty collection), wrap folders
then files as searchable items, build an OrSearchCriteria over
`NameSearchCriteria(query)` plus — when `searchInPath` —
`PathSearchCriteria(query)`, run the engine, map each match through its
`toSearchResult()`, and return the items with their count and the literal
query string. -/
def SearchService.search (dp : DataProviderState) (query : String)
    (options : SearchOptions) : ISearchResult :=
  let folders := if options.includeFolders then dp.folders else []
  let files := if options.includeFiles then dp.files else []
  let searchableItems :=
    folders.map ISearchable.SearchableFolder ++ files.map ISearchable.SearchableFile
  let searchCriteria :=
    [ISearchCriteria.NameSearchCriteria query] ++
      (if options.searchInPath then [ISearchCriteria.PathSearchCriteria query] else [])
  let results :=
    SearchEngine.search searchableItems (ISearchCriteria.OrSearchCriteria searchCriteria)
  let items := results.map ISearchable.toSearchResult
  { items := items, totalCount := items.length, query := query }

/-- `SearchService.advancedSearch(criteria)` (embedded from
`migrations/0001_initial.sql`): fetch both folders and files
unconditionally, wrap them, run the engine with the supplied criteria
directly, map matches through `toSearchResult()`, and return the result with
the hard-coded query label `Advanced Search`. -/
def SearchService.advancedSearch (dp : DataProviderState)
    (criteria : ISearchCriteria) : ISearchResult :=
  let searchableItems :=
    dp.folders.map ISearchable.SearchableFolder ++ dp.files.map ISearchable.SearchableFile
  let results := SearchEngine.search searchableItems criteria
  let items := results.map ISearchable.toSearchResult
  { items := items, totalCount := items.length, query := "Advanced Search" }

/-- One node of the untyped criteria description received by the advanced
search endpoint (`controllers/search.ts`): a `type` discriminator tag, a
`value` for leaf tags, and `children` for the composite tags.  A missing
`value` or `children` field is represented by the empty string / empty list;
the embedded claims never exercise a leaf without `value` or a composite
without `children`. -/
inductive CriteriaData where
  | mk (type : String) (value : String) (children : List CriteriaData)

/-- The `type` tag of a criteria-description node. -/
def CriteriaData.type : CriteriaData → String
  | .mk t _ _ => t

mutual

/-- The inner `buildCriteria` closure of
`SearchController.buildSearchCriteria` (`controllers/search.ts`): a switch on
`data.type` mapping the five recognized tags to criteria constructors
(recursively building the children of `and` / `or`) and throwing
`Error("Unknown criteria type: " + tag)` on any other tag. -/
def buildCriteria : CriteriaData → Except String ISearchCriteria
  | .mk t v cs =>
    if t == "name" then .ok (.NameSearchCriteria v)
    else if t == "path" then .ok (.PathSearchCriteria v)
    else if t == "type" then .ok (.TypeSearchCriteria v)
    else if t == "and" then
      match buildCriteriaChildren cs with
      | .ok rs => .ok (.AndSearchCriteria rs)
      | .error e => .error e
    else if t == "or" then
      match buildCriteriaChildren cs with
      | .ok rs => .ok (.OrSearchCriteria rs)
      | .error e => .error e
    else .error ("Unknown criteria type: " ++ t)

/-- `children.map(child => buildCriteria(child))` with JS exception
propagation: the first child whose build throws aborts the whole map. -/
def buildCriteriaChildren : List CriteriaData → Except String (List ISearchCriteria)
  | [] => .ok []
  | c :: cs =>
    match buildCriteria c with
    | .error e => .error e
    | .ok r =>
      match buildCriteriaChildren cs with
      | .error e => .error e
      | .ok rs => .ok (r :: rs)

end

/-- `SearchController.buildSearchCriteria` (`controllers/search.ts`): a
single-element list builds that element directly; otherwise every element is
built and the results are wrapped in an `AndSearchCriteria`. -/
def buildSearchCriteria (criteriaData : List CriteriaData) : Except String ISearchCriteria :=
  match criteriaData with
  | [c] => buildCriteria c
  | l =>
    match buildCriteriaChildren l with
    | .ok rs => .ok (.AndSearchCriteria rs)
    | .error e => .error e

mutual

/-- Whether the build of a node must encounter an unrecognized `type` tag:
the node itself carries an unrecognized tag, or it is an `and` / `or` node
one of whose children (recursively) does.  Children hanging off a leaf node
are not visited, exactly as in `buildCriteria`. -/
def hasUnknownKind : CriteriaData → Bool
  | .mk t _ cs =>
    if t == "name" || t == "path" || t == "type" then false
    else if t == "and" || t == "or" then hasUnknownKindChildren cs
    else true

/-- Whether some node of the list (recursively) trips `hasUnknownKind`. -/
def hasUnknownKindChildren : List CriteriaData → Bool
  | [] => false
  | c :: cs => hasUnknownKind c || hasUnknownKindChildren cs

end

/-- Outcome of the GET free-text route handler, separating the early error
response from an invocation of the search service: `invoke q options` records
that `searchService.search(q, options)` is called. -/
inductive GetSearchOutcome where
  | errorResp (error : String)
  | invoke (q : String) (options : SearchOptions)

/-- The GET `/api/v1/search/` handler of `controllers/search.ts`: the include
flags are string parameters compared against the literal false, and an
absent, empty or whitespace-only `q` is rejected before the search service is
invoked. -/
def getSearchRoute (q files folders path : Option String) : GetSearchOutcome :=
  let includeFiles := files != some ("false")
  let includeFolders := folders != some ("false")
  let searchInPath := path != some ("false")
  match q with
  | none => .errorResp ("Search query is required and cannot be empty")
  | some s =>
    if s.isEmpty || s.trim.length == 0 then
      .errorResp ("Search query is required and cannot be empty")
    else
      .invoke s { includeFiles := includeFiles, includeFolders := includeFolders
                  searchInPath := searchInPath }

/-- Outcome of the POST advanced route handler: `invoke c` records that
`searchService.advancedSearch(c)` is called with the built criteria `c`. -/
inductive AdvancedSearchOutcome where
  | errorResp (error : String)
  | invoke (criteria : ISearchCriteria)

/-- The POST `/api/v1/search/advanced` handler of `controllers/search.ts`:
`none` stands for a body whose `criteria` field is absent or not an array;
such a body, or an empty array, is rejected before any criteria are built,
and a build error is returned as the error message of the response (the
handler's catch block). -/
def advancedSearchRoute (criteria : Option (List CriteriaData)) : AdvancedSearchOutcome :=
  match criteria with
  | none => .errorResp ("Search criteria are required")
  | some l =>
    if l.length == 0 then .errorResp ("Search criteria are required")
    else
      match buildSearchCriteria l with
      | .ok c => .invoke c
      | .error e => .errorResp e

theorem executeAll_eq_true_iff (cs : List ISearchCriteria) (x : ISearchable) :
    ISearchCriteria.executeAll cs x = true ↔ ∀ c ∈ cs, c.execute x = true := by
  induction cs with
  | nil => simp [ISearchCriteria.executeAll]
  | cons c cs ih => simp [ISearchCriteria.executeAll, Bool.and_eq_true, ih]

theorem executeAny_eq_true_iff (cs : List ISearchCriteria) (x : ISearchable) :
    ISearchCriteria.executeAny cs x = true ↔ ∃ c ∈ cs, c.execute x = true := by
  induction cs with
  | nil => simp [ISearchCriteria.executeAny]
  | cons c cs ih => simp [ISearchCriteria.executeAny, Bool.or_eq_true, ih]

/-- C1: `And(cs).evaluate(x)` holds iff every child of `cs` evaluates to true
on `x` (so `And([])` is true), and `Or(cs).evaluate(x)` holds iff at least
one child of `cs` evaluates to true on `x` (so `Or([])` is false). -/
theorem and_or_evaluate_semantics (x : ISearchable) (cs : List ISearchCriteria) :
    ((ISearchCriteria.AndSearchCriteria cs).execute x = true ↔
        ∀ c ∈ cs, c.execute x = true)
    ∧ ((ISearchCriteria.OrSearchCriteria cs).execute x = true ↔
        ∃ c ∈ cs, c.execute x = true)
    ∧ (ISearchCriteria.AndSearchCriteria []).execute x = true
    ∧ (ISearchCriteria.OrSearchCriteria []).execute x = false := by
  refine ⟨?_, ?_, ?_, ?_⟩
  · rw [ISearchCriteria.execute]
    exact executeAll_eq_true_iff cs x
  · rw [ISearchCriteria.execute]
    exact executeAny_eq_true_iff cs x
  · rw [ISearchCriteria.execute, ISearchCriteria.executeAll]
  · rw [ISearchCriteria.execute, ISearchCriteria.executeAny]

/-- C4: the engine returns exactly the order-preserving subsequence of the
candidates satisfying the predicate: the result is the filter of the input by
the predicate, it is a sublist of the input (same relative order, no
mutation), and an item belongs to it iff it belongs to the input and the
predicate evaluates to true on it. -/
theorem search_engine_filter_semantics (items : List ISearchable) (p : ISearchCriteria) :
    SearchEngine.search items p = items.filter (fun it => p.execute it)
    ∧ List.Sublist (SearchEngine.search items p) items
    ∧ ∀ it : ISearchable,
        it ∈ SearchEngine.search items p ↔ it ∈ items ∧ p.execute it = true := by
  refine ⟨rfl, List.filter_sublist items, fun it => ?_⟩
  simp [SearchEngine.search, List.mem_filter]

/-- C5: `NameContains(term).evaluate(x)` holds iff `term` is a
case-insensitive substring of the item's name (the lower-casing of `term` is
a contiguous sublist of the lower-casing of `getName()`), and the empty term
matches every item. -/
theorem name_contains_semantics (x : ISearchable) (term : String) :
    ((ISearchCriteria.NameSearchCriteria term).execute x = true ↔
        (jsToLowerCase term).data <:+: (jsToLowerCase x.getName).data)
    ∧ (ISearchCriteria.NameSearchCriteria ("")).execute x = true := by
  constructor
  · rw [ISearchCriteria.execute]
    simp [jsIncludes]
  · rw [ISearchCriteria.execute]
    simp [jsIncludes, jsToLowerCase]

/-- C6: the free-text entry point fetches folders only when `includeFolders`
and files only when `includeFiles` (folders first), keeps exactly the items
on which the name criterion matches or (`searchInPath` and the path criterion
matches), echoes the literal query string, and the default options enable all
three flags. -/
theorem free_text_search_semantics (dp : DataProviderState) (q : String)
    (opts : SearchOptions) :
    (SearchService.search dp q opts).query = q
    ∧ (SearchService.search dp q opts).items =
        (((if opts.includeFolders then dp.folders else []).map ISearchable.SearchableFolder
            ++ (if opts.includeFiles then dp.files else []).map ISearchable.SearchableFile).filter
          (fun it => (ISearchCriteria.NameSearchCriteria q).execute it
              || (opts.searchInPath && (ISearchCriteria.PathSearchCriteria q).execute it))).map
          ISearchable.toSearchResult
    ∧ SearchOptions.default.includeFiles = true
    ∧ SearchOptions.default.includeFolders = true
    ∧ SearchOptions.default.searchInPath = true := by
  refine ⟨rfl, ?_, rfl, rfl, rfl⟩
  cases hs : opts.searchInPath with
  | true =>
    simp only [SearchService.search, SearchEngine.search, hs, if_true,
      List.singleton_append, ISearchCriteria.execute, ISearchCriteria.executeAny,
      Bool.or_false, Bool.true_and]
  | false =>
    simp only [SearchService.search, SearchEngine.search, hs, if_false,
      List.append_nil, ISearchCriteria.execute, ISearchCriteria.executeAny,
      Bool.or_false, Bool.false_and]

/-- C7: the advanced entry point fetches both folders and files
unconditionally, filters them with the supplied predicate directly, and sets
the result's `query` field to the hard-coded label `Advanced Search`,
independent of the submitted predicate. -/
theorem advanced_search_semantics (dp : DataProviderState) (p q : ISearchCriteria) :
    (SearchService.advancedSearch dp p).query = ("Advanced Search")
    ∧ (SearchService.advancedSearch dp p).query = (SearchService.advancedSearch dp q).query
    ∧ (SearchService.advancedSearch dp p).items =
        ((dp.folders.map ISearchable.SearchableFolder
            ++ dp.files.map ISearchable.SearchableFile).filter
          (fun it => p.execute it)).map ISearchable.toSearchResult :=
  ⟨rfl, rfl, rfl⟩

mutual

theorem hasUnknownKind_not_ok : ∀ (n : CriteriaData), hasUnknownKind n = true →
    ∀ c : ISearchCriteria, buildCriteria n ≠ Except.ok c
  | .mk t v cs, h, c => by
    by_cases e1 : t = "name"
    · subst e1
      rw [hasUnknownKind] at h
      simp at h
    by_cases e2 : t = "path"
    · subst e2
      rw [hasUnknownKind] at h
      simp at h
    by_cases e3 : t = "type"
    · subst e3
      rw [hasUnknownKind] at h
      simp at h
    by_cases e4 : t = "and"
    · subst e4
      rw [hasUnknownKind] at h
      simp at h
      rw [buildCriteria]
      cases hb : buildCriteriaChildren cs with
      | error e => simp [hb]
      | ok rs => exact absurd hb (hasUnknownKindChildren_not_ok cs h rs)
    by_cases e5 : t = "or"
    · subst e5
      rw [hasUnknownKind] at h
      simp at h
      rw [buildCriteria]
      cases hb : buildCriteriaChildren cs with
      | error e => simp [hb]
      | ok rs => exact absurd hb (hasUnknownKindChildren_not_ok cs h rs)
    rw [buildCriteria]
    simp [beq_iff_eq, e1, e2, e3, e4, e5]

theorem hasUnknownKindChildren_not_ok : ∀ (l : List CriteriaData),
    hasUnknownKindChildren l = true →
    ∀ rs : List ISearchCriteria, buildCriteriaChildren l ≠ Except.ok rs
  | [], h, rs => by
    rw [hasUnknownKindChildren] at h
    simp at h
  | c :: cs, h, rs => by
    rw [hasUnknownKindChildren] at h
    rw [buildCriteriaChildren]
    cases hb : buildCriteria c with
    | error e => simp
    | ok r =>
      have hc : hasUnknownKind c = false := by
        cases hck : hasUnknownKind c with
        | false => rfl
        | true => exact absurd hb (hasUnknownKind_not_ok c hck r)
      rw [hc, Bool.false_or] at h
      cases hbs : buildCriteriaChildren cs with
      | error e => simp
      | ok rs2 => exact absurd hbs (hasUnknownKindChildren_not_ok cs h rs2)

end

/-- C2: a criteria-description node whose tag is none of the five recognized
values makes the builder fail with the error identifying the offending tag
(never a predicate); a tag like that anywhere in the visited tree makes the
whole build fail; and through the advanced endpoint the failure surfaces as
the error of the response. -/
theorem unknown_kind_aborts_build (t v : String) (cs : List CriteriaData)
    (h : (t == "name" || t == "path" || t == "type" || t == "and" || t == "or") = false) :
    buildCriteria (.mk t v cs) = .error ("Unknown criteria type: " ++ t)
    ∧ (∀ c : ISearchCriteria, buildCriteria (.mk t v cs) ≠ .ok c)
    ∧ (∀ (n : CriteriaData) (c : ISearchCriteria),
        hasUnknownKind n = true → buildCriteria n ≠ .ok c)
    ∧ advancedSearchRoute (some [CriteriaData.mk t v cs]) =
        .errorResp ("Unknown criteria type: " ++ t) := by
  have h5 := h
  simp only [Bool.or_eq_false_iff] at h5
  obtain ⟨⟨⟨⟨h1, h2⟩, h3⟩, h4⟩, h5⟩ := h5
  have hroot : buildCriteria (.mk t v cs) = .error ("Unknown criteria type: " ++ t) := by
    rw [buildCriteria]
    simp [h1, h2, h3, h4, h5]
  refine ⟨hroot, ?_, ?_, ?_⟩
  · intro c
    rw [hroot]
    simp
  · exact fun n c hn => hasUnknownKind_not_ok n hn c
  · have hb : buildSearchCriteria [CriteriaData.mk t v cs] =
        .error ("Unknown criteria type: " ++ t) := by
      rw [buildSearchCriteria, hroot]
    rw [advancedSearchRoute]
    simp [hb]

/-- C2 witness: the builder rejects the tag bogus. -/
theorem unknown_kind_aborts_build_witness :
    buildCriteria (.mk ("bogus") ("x") []) = .error ("Unknown criteria type: " ++ "bogus")
    ∧ (∀ c : ISearchCriteria, buildCriteria (.mk ("bogus") ("x") []) ≠ .ok c)
    ∧ (∀ (n : CriteriaData) (c : ISearchCriteria),
        hasUnknownKind n = true → buildCriteria n ≠ .ok c)
    ∧ advancedSearchRoute (some [CriteriaData.mk ("bogus") ("x") []]) =
        .errorResp ("Unknown criteria type: " ++ "bogus") :=
  unknown_kind_aborts_build ("bogus") ("x") [] (by decide)

/-- C3: a single-element criteria list builds exactly that criterion, and a
list of two or more elements builds the same predicate as an explicit `and`
node with those elements as children. -/
theorem implicit_and_for_lists (c : CriteriaData) (l : List CriteriaData) (v : String)
    (h : 2 ≤ l.length) :
    buildSearchCriteria [c] = buildCriteria c
    ∧ buildSearchCriteria l = buildCriteria (.mk ("and") v l) := by
  refine ⟨rfl, ?_⟩
  match l, h with
  | c1 :: c2 :: rest, _ => rfl

/-- C3 witness: a concrete two-element list is built exactly like the
corresponding explicit `and` node. -/
theorem implicit_and_for_lists_witness :
    buildSearchCriteria [CriteriaData.mk ("name") ("x") []] =
      buildCriteria (CriteriaData.mk ("name") ("x") [])
    ∧ buildSearchCriteria
        [CriteriaData.mk ("name") ("x") [], CriteriaData.mk ("path") ("y") []] =
      buildCriteria (.mk ("and") ("")
        [CriteriaData.mk ("name") ("x") [], CriteriaData.mk ("path") ("y") []]) :=
  implicit_and_for_lists (CriteriaData.mk ("name") ("x") [])
    [CriteriaData.mk ("name") ("x") [], CriteriaData.mk ("path") ("y") []] ("") (by decide)

/-- C9: a GET free-text request whose `q` is absent, empty or whitespace-only
is answered with the required-query error before the search service is ever
invoked. -/
theorem empty_query_rejected (q files folders path : Option String)
    (h : q = none ∨ ∃ s, q = some s ∧ s.trim = ("")) :
    getSearchRoute q files folders path =
      .errorResp ("Search query is required and cannot be empty") := by
  rcases h with h | ⟨s, hq, hs⟩
  · subst h
    rfl
  · subst hq
    rw [getSearchRoute]
    simp [hs]

/-- C9 witness: a request with no `q` parameter is rejected. -/
theorem empty_query_rejected_witness :
    getSearchRoute none none none none =
      .errorResp ("Search query is required and cannot be empty") :=
  empty_query_rejected none none none none (Or.inl rfl)

/-- C10: a POST advanced request whose criteria list is absent (or not an
array) or empty is answered with the required-criteria error before any
criteria are built, and the builder runs exactly when the list is
non-empty. -/
theorem missing_criteria_rejected (l : List CriteriaData) (h : l ≠ []) :
    advancedSearchRoute none = .errorResp ("Search criteria are required")
    ∧ advancedSearchRoute (some []) = .errorResp ("Search criteria are required")
    ∧ advancedSearchRoute (some l) =
        (match buildSearchCriteria l with
          | .ok c => .invoke c
          | .error e => .errorResp e) := by
  refine ⟨rfl, rfl, ?_⟩
  match l, h with
  | c :: cs, _ => rfl

/-- C10 witness: the guards at a concrete non-empty list. -/
theorem missing_criteria_rejected_witness :
    advancedSearchRoute none = .errorResp ("Search criteria are required")
    ∧ advancedSearchRoute (some []) = .errorResp ("Search criteria are required")
    ∧ advancedSearchRoute (some [CriteriaData.mk ("name") ("x") []]) =
        (match buildSearchCriteria [CriteriaData.mk ("name") ("x") []] with
          | .ok c => .invoke c
          | .error e => .errorResp e) :=
  missing_criteria_rejected [CriteriaData.mk ("name") ("x") []] (by simp)

/-- C8: on both orchestrator entry points, `totalCount` is exactly the length
of the returned items sequence. -/
theorem total_count_equals_items_length (dp : DataProviderState) (q : String)
    (opts : SearchOptions) (p : ISearchCriteria) :
    (SearchService.search dp q opts).totalCount = (SearchService.search dp q opts).items.length
    ∧ (SearchService.advancedSearch dp p).totalCount =
        (SearchService.advancedSearch dp p).items.length :=
  ⟨rfl, rfl⟩
